import Mathlib

/-!
Verification development for the relay_core screen-share plugin
(flutter_sfu_relay): a shallow embedding of the Windows
(windows/screen_share_plugin.cpp) and Linux (linux/screen_share_plugin.cc)
implementations, followed by theorems about the method dispatcher, the
capture-exclusion controller and the overlay controller.
-/

namespace RelayCore

/-! ## Standard-method-codec values

Model of flutter EncodableValue as far as the plugin inspects it.  The
handler only ever looks up the string key "exclude" in an argument map, so
map entries are keyed by strings here; an entry whose key is not a string
can never match that lookup and behaves exactly like an absent entry. -/

inductive EncodableValue where
  | nullV : EncodableValue
  | boolV (b : Bool) : EncodableValue
  | intV (n : Int) : EncodableValue
  | stringV (s : String) : EncodableValue
  | mapV (entries : List (String × EncodableValue)) : EncodableValue

/-- Discriminator for the bool alternative of the variant: std::get with the
bool alternative succeeds exactly when this is true. -/
def EncodableValue.isBool : EncodableValue → Bool
  | .boolV _ => true
  | _ => false

/-! ## Method-call outcomes

The flutter MethodResult sink offers Success, Error and NotImplemented.  A
fourth outcome models the path in the Windows handler where std::get on a
wrongly typed variant raises std::bad_variant_access before any result is
produced. -/

inductive MethodOutcome where
  | success (v : EncodableValue) : MethodOutcome
  | error (code msg : String) : MethodOutcome
  | notImplemented : MethodOutcome
  | thrown : MethodOutcome

/-- The outcome is one of the three results the channel contract knows
about (success, error, notImplemented), as opposed to an escaped
exception. -/
def MethodOutcome.isSettled : MethodOutcome → Bool
  | .thrown => false
  | _ => true

def MethodOutcome.isSuccessOutcome : MethodOutcome → Bool
  | .success _ => true
  | _ => false

def MethodOutcome.isErrorOutcome : MethodOutcome → Bool
  | .error _ _ => true
  | _ => false

def MethodOutcome.isNotImplementedOutcome : MethodOutcome → Bool
  | .notImplemented => true
  | _ => false

/-- The outcome is an error response carrying the given error code. -/
def MethodOutcome.hasErrorCode (code : String) : MethodOutcome → Bool
  | .error c _ => c = code
  | _ => false

/-! ## OS-level effects requested by the dispatcher -/

inductive Effect where
  | setCapture (exclude : Bool) : Effect
  | showOverlayEffect : Effect
  | hideOverlayEffect : Effect
  | minimizeEffect (hwnd : Nat) : Effect
  | restoreEffect (hwnd : Nat) : Effect

/-! ## Windows dispatcher (ScreenSharePlugin::HandleMethodCall) -/

/-- Environment seen by the plugin: the window GetMainWindow resolves to
(registrar view walked to its root ancestor, else the active window), or
none when no window can be found. -/
structure PluginEnv where
  mainWindow : Option Nat

def GetMainWindow (env : PluginEnv) : Option Nat :=
  env.mainWindow

/-- args map lookup of the key "exclude", mirroring
args->find(flutter::EncodableValue("exclude")). -/
def findExclude : List (String × EncodableValue) → Option EncodableValue
  | [] => none
  | (k, v) :: rest => if k = "exclude" then some v else findExclude rest

/-- std::get_if on the arguments followed by the map lookup: none when the
arguments are absent or not a map, or when the map has no "exclude" key. -/
def excludeArg (args : Option EncodableValue) : Option EncodableValue :=
  match args with
  | some (.mapV entries) => findExclude entries
  | _ => none

/-- Result of one HandleMethodCall invocation: the response sent through
the MethodResult, the OS-level actions performed, and the value of the
main_window_handle_ member after the call. -/
structure DispatchOut where
  outcome : MethodOutcome
  effects : List Effect
  savedMainWindow : Option Nat

/-- ScreenSharePlugin::HandleMethodCall, windows/screen_share_plugin.cpp
lines 74-129.  The saved argument is the main_window_handle_ member on
entry.  In the setExcludeFromCapture branch the source runs
std::get(bool)(it->second) on the found entry: when the entry does not hold
a bool this throws std::bad_variant_access before any result or OS call
happens, which the thrown outcome records. -/
def HandleMethodCall (env : PluginEnv) (saved : Option Nat)
    (method : String) (args : Option EncodableValue) : DispatchOut :=
  if method = "isSupported" then
    ⟨.success (.boolV true), [], saved⟩
  else if method = "setExcludeFromCapture" then
    match excludeArg args with
    | some (.boolV b) => ⟨.success (.boolV true), [.setCapture b], saved⟩
    | some _ => ⟨.thrown, [], saved⟩
    | none => ⟨.error "INVALID_ARGS" "Missing exclude parameter", [], saved⟩
  else if method = "showOverlay" then
    ⟨.success (.boolV true), [.showOverlayEffect], saved⟩
  else if method = "hideOverlay" then
    ⟨.success (.boolV true), [.hideOverlayEffect], saved⟩
  else if method = "minimizeWindow" then
    match GetMainWindow env with
    | some h => ⟨.success (.boolV true), [.minimizeEffect h], some h⟩
    | none => ⟨.error "NO_WINDOW" "Could not find main window", [], saved⟩
  else if method = "restoreWindow" then
    match (match saved with | some h => some h | none => GetMainWindow env) with
    | some h => ⟨.success (.boolV true), [.restoreEffect h], saved⟩
    | none => ⟨.error "NO_WINDOW" "Could not find main window", [], saved⟩
  else
    ⟨.notImplemented, [], saved⟩

/-- The method names the Windows dispatcher recognizes. -/
def knownMethods : List String :=
  ["isSupported", "setExcludeFromCapture", "showOverlay", "hideOverlay",
   "minimizeWindow", "restoreWindow"]

/-! ## Linux dispatcher (method_call_cb, linux/screen_share_plugin.cc
lines 45-76).  The Linux handler never reads the call arguments;
setExcludeFromCapture is accepted and reports success without any OS
effect (no capture-exclusion API exists there). -/

def method_call_cb (method : String) : MethodOutcome × List Effect :=
  if method = "isSupported" then
    (.success (.boolV true), [])
  else if method = "setExcludeFromCapture" then
    (.success (.boolV true), [])
  else if method = "showOverlay" then
    (.success (.boolV true), [.showOverlayEffect])
  else if method = "hideOverlay" then
    (.success (.boolV true), [.hideOverlayEffect])
  else
    (.notImplemented, [])

/-- The method names the Linux dispatcher recognizes. -/
def linuxKnownMethods : List String :=
  ["isSupported", "setExcludeFromCapture", "showOverlay", "hideOverlay"]

/-! ## Capture-exclusion controller
(ScreenSharePlugin::SetExcludeFromCapture, windows lines 145-203)

Extended window styles are LONG_PTR bit patterns; they are modelled as
natural numbers below 2 to the 64th, with the two masks the source uses.
The state carries the extended style of the main window, the display
affinity last applied successfully, and the plugin member
original_ex_style_ (0 when no style is saved, its initializer in the
header). -/

def WS_EX_LAYERED : Nat := 0x80000

/-- Complement of WS_EX_LAYERED over 64-bit words, so that
land with it is the source expression exStyle and-not WS_EX_LAYERED. -/
def NOT_WS_EX_LAYERED : Nat := 0xFFFFFFFFFFF7FFFF

def WDA_NONE : Nat := 0x0
def WDA_EXCLUDEFROMCAPTURE : Nat := 0x11

/-- exStyle and-not WS_EX_LAYERED. -/
def clearLayered (st : Nat) : Nat := st &&& NOT_WS_EX_LAYERED

structure CaptureState where
  exStyle : Nat
  affinity : Nat
  originalExStyle : Nat

/-- ScreenSharePlugin::SetExcludeFromCapture.  windowFound models whether
GetMainWindow returned a window (the function returns immediately
otherwise); osOk models the BOOL returned by SetWindowDisplayAffinity.  On
failure the affinity is unchanged; the failure branch restores the
extended style when the call removed the layered bit, the success branch
of a disable call restores and clears the saved style. -/
def SetExcludeFromCapture (exclude windowFound osOk : Bool)
    (s : CaptureState) : CaptureState :=
  if !windowFound then s
  else
    let hasLayered := s.exStyle &&& WS_EX_LAYERED ≠ 0
    let s1 :=
      if exclude ∧ hasLayered then
        { s with originalExStyle := s.exStyle,
                 exStyle := clearLayered s.exStyle }
      else s
    if osOk then
      let s2 := { s1 with
        affinity := if exclude then WDA_EXCLUDEFROMCAPTURE else WDA_NONE }
      if ¬ exclude ∧ s2.originalExStyle ≠ 0 ∧
          s2.originalExStyle &&& WS_EX_LAYERED ≠ 0 then
        { s2 with exStyle := s2.originalExStyle, originalExStyle := 0 }
      else s2
    else
      if exclude ∧ hasLayered ∧ s1.originalExStyle ≠ 0 then
        { s1 with exStyle := s1.originalExStyle }
      else s1

/-! ## Windows overlay controller (ScreenShareOverlay)

Show creates one toolbar window and four corner border windows; creation
failures leave the corresponding handle out of the held set
(toolbar_window_ stays null, the failed border is not pushed on
border_windows_).  Creation success is an oracle argument: tOk for the
toolbar, bOk i for corner i.  Border windows record the geometry the
source passes to CreateWindowExW. -/

structure BorderWin where
  idx : Nat
  x : Int
  y : Int
  w : Int
  h : Int
  deriving DecidableEq, Repr

@[ext]
structure OverlayState where
  toolbar : Bool
  borders : List BorderWin
  deriving DecidableEq, Repr

/-- Constructor state: toolbar_window_(nullptr) and an empty
border_windows_ vector. -/
def hiddenState : OverlayState := { toolbar := false, borders := [] }

/-- cornerSize = 60 in CreateBorderWindows. -/
def cornerSize : Int := 60

/-- The corners array of CreateBorderWindows: top-left, top-right,
bottom-left, bottom-right for a primary screen of the given size. -/
def corners (screenW screenH : Int) : List (Int × Int) :=
  [(0, 0),
   (screenW - cornerSize, 0),
   (0, screenH - cornerSize),
   (screenW - cornerSize, screenH - cornerSize)]

/-- The border windows the creation loop pushes: index i is created at
corners[i] with size cornerSize by cornerSize, and is pushed only when its
CreateWindowExW call succeeds. -/
def mkBorders (screenW screenH : Int) (bOk : Nat → Bool) : List BorderWin :=
  (List.range 4).filterMap fun i =>
    if bOk i then
      some ⟨i, ((corners screenW screenH)[i]!).1,
            ((corners screenW screenH)[i]!).2, cornerSize, cornerSize⟩
    else none

/-- ScreenShareOverlay::CreateToolbarWindow: returns early when the
toolbar handle is already held; otherwise holds it when creation
succeeds. -/
def CreateToolbarWindow (tOk : Bool) (s : OverlayState) : OverlayState :=
  if s.toolbar then s
  else if tOk then { s with toolbar := true } else s

/-- ScreenShareOverlay::CreateBorderWindows: returns early when the border
vector is nonempty; otherwise runs the creation loop. -/
def CreateBorderWindows (screenW screenH : Int) (bOk : Nat → Bool)
    (s : OverlayState) : OverlayState :=
  if s.borders = [] then { s with borders := mkBorders screenW screenH bOk }
  else s

/-- ScreenShareOverlay::Show = CreateToolbarWindow then
CreateBorderWindows; the screen metrics are read on each call. -/
def Show (screenW screenH : Int) (tOk : Bool) (bOk : Nat → Bool)
    (s : OverlayState) : OverlayState :=
  CreateBorderWindows screenW screenH bOk (CreateToolbarWindow tOk s)

/-- ScreenShareOverlay::Hide: destroys the toolbar if held, destroys each
held border and clears the vector. -/
def Hide (_s : OverlayState) : OverlayState :=
  { toolbar := false, borders := [] }

/-- All-success creation oracle. -/
def allCreateOk : Nat → Bool := fun _ => true

/-- All five handles held: one toolbar handle and four border handles. -/
def allPresent (s : OverlayState) : Prop :=
  s.toolbar = true ∧ s.borders.length = 4

/-- No handle held. -/
def allAbsent (s : OverlayState) : Prop :=
  s.toolbar = false ∧ s.borders = []

/-- States reachable from the constructor state by Show and Hide, with
arbitrary screen metrics and arbitrary per-window creation outcomes. -/
inductive Reachable : OverlayState → Prop where
  | init : Reachable hiddenState
  | showStep (screenW screenH : Int) (tOk : Bool) (bOk : Nat → Bool)
      (s : OverlayState) : Reachable s →
      Reachable (Show screenW screenH tOk bOk s)
  | hideStep (s : OverlayState) : Reachable s → Reachable (Hide s)

/-- States reachable when every window creation succeeds. -/
inductive ReachableOk : OverlayState → Prop where
  | init : ReachableOk hiddenState
  | showStep (screenW screenH : Int) (s : OverlayState) : ReachableOk s →
      ReachableOk (Show screenW screenH true allCreateOk s)
  | hideStep (s : OverlayState) : ReachableOk s → ReachableOk (Hide s)

/-! ## Overlay events and the stop control -/

inductive OverlayEvent where
  | destroyToolbar : OverlayEvent
  | destroyBorder (idx : Nat) : OverlayEvent
  | notifyHost (method : String) (payload : Option EncodableValue) :
      OverlayEvent

def isNotifyEvent : OverlayEvent → Bool
  | .notifyHost _ _ => true
  | _ => false

/-- The DestroyWindow calls Hide performs: the toolbar when held, then
each held border window. -/
def HideEvents (s : OverlayState) : List OverlayEvent :=
  (if s.toolbar then [OverlayEvent.destroyToolbar] else []) ++
    s.borders.map fun b => OverlayEvent.destroyBorder b.idx

/-- The WM_COMMAND handler for the stop button
(ScreenShareOverlay::ToolbarWndProc, windows lines 461-472): Hide first,
then a single InvokeMethod of onStopSharingRequested with nullptr
payload. -/
def OnStopButton (s : OverlayState) : OverlayState × List OverlayEvent :=
  (Hide s,
   HideEvents s ++ [OverlayEvent.notifyHost "onStopSharingRequested" none])

/-! ## Graphics resources (Windows)

The constructor allocates two brushes and two fonts; each allocation can
fail, leaving a null handle.  The destructor runs Hide and then deletes
each non-null handle once.  Show and Hide never touch these members. -/

inductive GdiResource where
  | toolbarBrush : GdiResource
  | greenBrush : GdiResource
  | labelFont : GdiResource
  | buttonFont : GdiResource
  deriving DecidableEq, BEq, Repr

structure Resources where
  toolbarBrush : Bool
  greenBrush : Bool
  labelFont : Bool
  buttonFont : Bool
  deriving DecidableEq, Repr

structure Overlay where
  st : OverlayState
  res : Resources
  deriving DecidableEq, Repr

def overlayShow (screenW screenH : Int) (tOk : Bool) (bOk : Nat → Bool)
    (o : Overlay) : Overlay :=
  { o with st := Show screenW screenH tOk bOk o.st }

def overlayHide (o : Overlay) : Overlay :=
  { o with st := Hide o.st }

/-- The DeleteObject calls of the destructor: each allocated resource,
once. -/
def destructorReleases (r : Resources) : List GdiResource :=
  (if r.toolbarBrush then [GdiResource.toolbarBrush] else []) ++
  (if r.greenBrush then [GdiResource.greenBrush] else []) ++
  (if r.labelFont then [GdiResource.labelFont] else []) ++
  (if r.buttonFont then [GdiResource.buttonFont] else [])

/-- ScreenShareOverlay destructor: Hide, then release the graphics
resources. -/
def overlayDestructor (o : Overlay) : OverlayState × List GdiResource :=
  (Hide o.st, destructorReleases o.res)

/-! ## Linux overlay (linux/screen_share_plugin.cc)

Toolbar and four border slots; gtk_window_new does not fail, so creation
always fills an empty slot, and occupied slots are skipped
(create_toolbar_window returns early, the border loop continues past a
non-null slot). -/

structure GtkOverlayState where
  toolbar : Bool
  b0 : Bool
  b1 : Bool
  b2 : Bool
  b3 : Bool
  deriving DecidableEq, Repr

def gtkHiddenState : GtkOverlayState :=
  { toolbar := false, b0 := false, b1 := false, b2 := false, b3 := false }

def create_toolbar_window (s : GtkOverlayState) : GtkOverlayState :=
  if s.toolbar then s else { s with toolbar := true }

/-- create_border_windows: each empty slot is filled (creation cannot
fail), each occupied slot is skipped, so every slot is occupied after the
call. -/
def create_border_windows (s : GtkOverlayState) : GtkOverlayState :=
  { toolbar := s.toolbar, b0 := true, b1 := true, b2 := true, b3 := true }

/-- The showOverlay branch of method_call_cb: create_toolbar_window then
create_border_windows. -/
def gtk_show_overlay (s : GtkOverlayState) : GtkOverlayState :=
  create_border_windows (create_toolbar_window s)

/-- destroy_overlay_windows: destroys each non-null handle and nulls every
slot. -/
def destroy_overlay_windows (_s : GtkOverlayState) : GtkOverlayState :=
  gtkHiddenState

/-- The gtk_widget_destroy calls destroy_overlay_windows performs: only
the handles that are actually held. -/
def gtkHideEvents (s : GtkOverlayState) : List OverlayEvent :=
  (if s.toolbar then [OverlayEvent.destroyToolbar] else []) ++
  (if s.b0 then [OverlayEvent.destroyBorder 0] else []) ++
  (if s.b1 then [OverlayEvent.destroyBorder 1] else []) ++
  (if s.b2 then [OverlayEvent.destroyBorder 2] else []) ++
  (if s.b3 then [OverlayEvent.destroyBorder 3] else [])

/-- on_stop_button_clicked (linux lines 216-224): destroy_overlay_windows
first, then one fl_method_channel_invoke_method of onStopSharingRequested
with NULL arguments. -/
def on_stop_button_clicked (s : GtkOverlayState) :
    GtkOverlayState × List OverlayEvent :=
  (destroy_overlay_windows s,
   gtkHideEvents s ++ [OverlayEvent.notifyHost "onStopSharingRequested" none])

/-- The positions array of create_border_windows for a primary monitor at
origin (gx, gy) with size gw by gh. -/
def gtkBorderPositions (gx gy gw gh : Int) : List (Int × Int) :=
  [(gx, gy),
   (gx + gw - cornerSize, gy),
   (gx, gy + gh - cornerSize),
   (gx + gw - cornerSize, gy + gh - cornerSize)]

/-! ## Helper lemmas -/

theorem CreateBorderWindows_toolbar (screenW screenH : Int)
    (bOk : Nat → Bool) (s : OverlayState) :
    (CreateBorderWindows screenW screenH bOk s).toolbar = s.toolbar := by
  unfold CreateBorderWindows
  split <;> rfl

theorem CreateToolbarWindow_true_toolbar (s : OverlayState) :
    (CreateToolbarWindow true s).toolbar = true := by
  unfold CreateToolbarWindow
  split
  · assumption
  · rfl

theorem Show_allOk_toolbar (screenW screenH : Int) (s : OverlayState) :
    (Show screenW screenH true allCreateOk s).toolbar = true := by
  unfold Show
  rw [CreateBorderWindows_toolbar, CreateToolbarWindow_true_toolbar]

theorem mkBorders_allOk_length (screenW screenH : Int) :
    (mkBorders screenW screenH allCreateOk).length = 4 := rfl

theorem mkBorders_allOk_ne_nil (screenW screenH : Int) :
    mkBorders screenW screenH allCreateOk ≠ [] := by
  intro hc
  exact List.noConfusion hc

theorem CreateToolbarWindow_borders (tOk : Bool) (s : OverlayState) :
    (CreateToolbarWindow tOk s).borders = s.borders := by
  unfold CreateToolbarWindow
  split
  · rfl
  · split <;> rfl

theorem Show_allOk_borders_ne_nil (screenW screenH : Int) (tOk : Bool)
    (s : OverlayState) :
    (Show screenW screenH tOk allCreateOk s).borders ≠ [] := by
  unfold Show CreateBorderWindows
  split
  · exact mkBorders_allOk_ne_nil screenW screenH
  · rw [CreateToolbarWindow_borders]
    intro hc
    rw [CreateToolbarWindow_borders] at *
    exact absurd hc (by assumption)

theorem CreateToolbarWindow_toolbar_or (tOk : Bool) (t : OverlayState) :
    (CreateToolbarWindow tOk t).toolbar = (t.toolbar || tOk) := by
  unfold CreateToolbarWindow
  cases h : t.toolbar <;> cases tOk <;> simp [h]

theorem Show_toolbar_or (screenW screenH : Int) (tOk : Bool)
    (bOk : Nat → Bool) (s : OverlayState) :
    (Show screenW screenH tOk bOk s).toolbar = (s.toolbar || tOk) := by
  unfold Show
  rw [CreateBorderWindows_toolbar, CreateToolbarWindow_toolbar_or]

theorem Show_borders_eq (screenW screenH : Int) (tOk : Bool)
    (bOk : Nat → Bool) (s : OverlayState) :
    (Show screenW screenH tOk bOk s).borders =
      if s.borders = [] then mkBorders screenW screenH bOk
      else s.borders := by
  unfold Show CreateBorderWindows
  split
  case isTrue h' =>
    rw [CreateToolbarWindow_borders] at h'
    rw [if_pos h']
  case isFalse h' =>
    rw [CreateToolbarWindow_borders] at h'
    rw [if_neg h', CreateToolbarWindow_borders]

theorem gtk_show_overlay_full (s : GtkOverlayState) :
    gtk_show_overlay s =
      { toolbar := true, b0 := true, b1 := true, b2 := true, b3 := true } := by
  unfold gtk_show_overlay create_toolbar_window create_border_windows
  split <;> simp_all

theorem filter_notify_HideEvents (s : OverlayState) :
    (HideEvents s).filter isNotifyEvent = [] := by
  unfold HideEvents
  rw [List.filter_append]
  have h1 : (if s.toolbar then [OverlayEvent.destroyToolbar] else
      []).filter isNotifyEvent = [] := by
    split <;> rfl
  have h2 : (s.borders.map fun b =>
      OverlayEvent.destroyBorder b.idx).filter isNotifyEvent = [] := by
    induction s.borders with
    | nil => rfl
    | cons a l ih => simp [isNotifyEvent, ih]
  rw [h1, h2]
  rfl

theorem filter_notify_gtkHideEvents (s : GtkOverlayState) :
    (gtkHideEvents s).filter isNotifyEvent = [] := by
  obtain ⟨t, a, b, c, d⟩ := s
  cases t <;> cases a <;> cases b <;> cases c <;> cases d <;> rfl

theorem Show_allOk_borders_length (screenW screenH : Int) (tOk : Bool)
    (t : OverlayState) (hb : t.borders = [] ∨ t.borders.length = 4) :
    (Show screenW screenH tOk allCreateOk t).borders.length = 4 := by
  unfold Show CreateBorderWindows
  split
  case isTrue h' => exact mkBorders_allOk_length screenW screenH
  case isFalse h' =>
    rw [CreateToolbarWindow_borders] at *
    rcases hb with hb | hb
    · exact absurd hb h'
    · exact hb

theorem exStyle_ne_zero {x : Nat} (h : x &&& WS_EX_LAYERED ≠ 0) : x ≠ 0 := by
  intro h0
  subst h0
  exact h (Nat.zero_and _)

theorem clearLayered_land (x : Nat) :
    clearLayered x &&& WS_EX_LAYERED = 0 := by
  unfold clearLayered
  rw [Nat.land_assoc]
  have h : NOT_WS_EX_LAYERED &&& WS_EX_LAYERED = 0 := by decide
  rw [h, Nat.and_zero]

/-- Evaluation of an exclude call on a layered window when the affinity
call succeeds: the layered bit is stripped, the affinity applied and the
prior style saved. -/
theorem setExclude_true_ok_layered (s : CaptureState)
    (h : s.exStyle &&& WS_EX_LAYERED ≠ 0) :
    SetExcludeFromCapture true true true s =
      ⟨clearLayered s.exStyle, WDA_EXCLUDEFROMCAPTURE, s.exStyle⟩ := by
  unfold SetExcludeFromCapture
  simp [h]

/-- Evaluation of an exclude call on a layered window when the affinity
call fails: the stripped style is restored. -/
theorem setExclude_true_fail_layered (s : CaptureState)
    (h : s.exStyle &&& WS_EX_LAYERED ≠ 0) :
    SetExcludeFromCapture true true false s =
      ⟨s.exStyle, s.affinity, s.exStyle⟩ := by
  unfold SetExcludeFromCapture
  simp [h, exStyle_ne_zero h]

/-- Evaluation of a successful disable call when a layered style is
saved: the saved style is restored and the saved slot cleared. -/
theorem setExclude_false_ok_restore (s : CaptureState)
    (h : s.originalExStyle &&& WS_EX_LAYERED ≠ 0) :
    SetExcludeFromCapture false true true s =
      ⟨s.originalExStyle, WDA_NONE, 0⟩ := by
  unfold SetExcludeFromCapture
  simp [h, exStyle_ne_zero h]

/-- Evaluation of a successful disable call when no style is saved: only
the affinity changes. -/
theorem setExclude_false_ok_nosave (s : CaptureState)
    (h : s.originalExStyle = 0) :
    SetExcludeFromCapture false true true s =
      ⟨s.exStyle, WDA_NONE, s.originalExStyle⟩ := by
  unfold SetExcludeFromCapture
  simp [h]

/-- A failed affinity call never changes the extended style, whatever the
direction of the toggle. -/
theorem setExclude_fail_exStyle (e : Bool) (s : CaptureState) :
    (SetExcludeFromCapture e true false s).exStyle = s.exStyle := by
  unfold SetExcludeFromCapture
  cases e with
  | false => simp
  | true =>
    by_cases hL : s.exStyle &&& WS_EX_LAYERED ≠ 0
    · simp [hL, exStyle_ne_zero hL]
    · simp [hL]

/-! ## Claims -/

/-- C1 counterexample: a call whose argument map carries the exclude field
with a non-boolean value does not return the INVALID_ARGS error the claim
requires: on Windows std::get raises std::bad_variant_access, so no result
at all is produced; and on Linux a call with the field missing entirely
returns success rather than INVALID_ARGS. -/
theorem c1_counterexample :
    (HandleMethodCall ⟨none⟩ none "setExcludeFromCapture"
      (some (.mapV [("exclude", .intV 1)]))).outcome = .thrown ∧
    (HandleMethodCall ⟨none⟩ none "setExcludeFromCapture"
      (some (.mapV [("exclude", .intV 1)]))).outcome.hasErrorCode
        "INVALID_ARGS" = false ∧
    (HandleMethodCall ⟨none⟩ none "setExcludeFromCapture"
      (some (.mapV [("exclude", .intV 1)]))).effects = [] ∧
    (method_call_cb "setExcludeFromCapture").1 =
      .success (.boolV true) :=
  ⟨rfl, rfl, rfl, rfl⟩

/-- C1 amended: on Windows, when the argument map carries a boolean
exclude field the handler invokes the capture-affinity toggle and returns
success true; when the arguments are not a map or the field is missing it
returns the INVALID_ARGS error and performs no OS-level action; when the
field is present with a non-boolean type the variant access throws and no
result and no OS-level action is produced.  On Linux the method always
returns success true with no effect. -/
theorem c1_amended (env : PluginEnv) (saved : Option Nat)
    (args : Option EncodableValue) :
    (∀ b : Bool, excludeArg args = some (.boolV b) →
      HandleMethodCall env saved "setExcludeFromCapture" args =
        ⟨.success (.boolV true), [.setCapture b], saved⟩) ∧
    (excludeArg args = none →
      HandleMethodCall env saved "setExcludeFromCapture" args =
        ⟨.error "INVALID_ARGS" "Missing exclude parameter", [], saved⟩) ∧
    (∀ v : EncodableValue, excludeArg args = some v → v.isBool = false →
      HandleMethodCall env saved "setExcludeFromCapture" args =
        ⟨.thrown, [], saved⟩) ∧
    method_call_cb "setExcludeFromCapture" = (.success (.boolV true), []) := by
  refine ⟨?_, ?_, ?_, rfl⟩
  · intro b hb
    simp [HandleMethodCall, hb]
  · intro hn
    simp [HandleMethodCall, hn]
  · intro v hv hnb
    cases v <;> simp_all [HandleMethodCall, EncodableValue.isBool]

/-- Concrete instance of the amended C1: a well-typed exclude field
toggles and returns success. -/
theorem c1_amended_witness :
    HandleMethodCall ⟨none⟩ none "setExcludeFromCapture"
      (some (.mapV [("exclude", .boolV true)])) =
      ⟨.success (.boolV true), [.setCapture true], none⟩ :=
  (c1_amended ⟨none⟩ none (some (.mapV [("exclude", .boolV true)]))).1
    true rfl

/-- C2: when excluding a window that carries the layered extended style,
SetExcludeFromCapture strips that style (the resulting style no longer has
the layered bit), applies the capture-exclusion affinity and saves the
prior style, and the subsequent disable call restores the style afterward;
and for every call on which the affinity call fails, any style removal is
undone, so the extended style equals its pre-call value. -/
theorem c2_layered_workaround (s : CaptureState)
    (h : s.exStyle &&& WS_EX_LAYERED ≠ 0) :
    (SetExcludeFromCapture true true true s).exStyle =
      clearLayered s.exStyle ∧
    (SetExcludeFromCapture true true true s).exStyle &&&
      WS_EX_LAYERED = 0 ∧
    (SetExcludeFromCapture true true true s).affinity =
      WDA_EXCLUDEFROMCAPTURE ∧
    (SetExcludeFromCapture true true true s).originalExStyle = s.exStyle ∧
    (SetExcludeFromCapture false true true
      (SetExcludeFromCapture true true true s)).exStyle = s.exStyle ∧
    ∀ (t : CaptureState) (e : Bool),
      (SetExcludeFromCapture e true false t).exStyle = t.exStyle := by
  rw [setExclude_true_ok_layered s h]
  refine ⟨rfl, clearLayered_land s.exStyle, rfl, rfl, ?_,
    fun t e => setExclude_fail_exStyle e t⟩
  rw [setExclude_false_ok_restore ⟨clearLayered s.exStyle,
    WDA_EXCLUDEFROMCAPTURE, s.exStyle⟩ h]

/-- Concrete instance of C2 on a window whose extended style is exactly
WS_EX_LAYERED. -/
theorem c2_layered_workaround_witness :
    (SetExcludeFromCapture true true true
      ⟨0x80000, 0, 0⟩).exStyle = clearLayered 0x80000 :=
  (c2_layered_workaround ⟨0x80000, 0, 0⟩ (by decide)).1

/-- C3: from a state with no saved style, an exclude call (whether or not
its affinity call succeeds) followed by a successful disable call leaves
the extended style identical to the pre-sequence value, and the saved
prior style is cleared once restored. -/
theorem c3_exclude_roundtrip (s : CaptureState) (ok1 : Bool)
    (h0 : s.originalExStyle = 0) :
    (SetExcludeFromCapture false true true
      (SetExcludeFromCapture true true ok1 s)).exStyle = s.exStyle ∧
    (SetExcludeFromCapture false true true
      (SetExcludeFromCapture true true ok1 s)).originalExStyle = 0 := by
  by_cases hL : s.exStyle &&& WS_EX_LAYERED ≠ 0
  · cases ok1 with
    | true =>
      rw [setExclude_true_ok_layered s hL,
        setExclude_false_ok_restore ⟨clearLayered s.exStyle,
          WDA_EXCLUDEFROMCAPTURE, s.exStyle⟩ hL]
      exact ⟨rfl, rfl⟩
    | false =>
      rw [setExclude_true_fail_layered s hL,
        setExclude_false_ok_restore ⟨s.exStyle, s.affinity, s.exStyle⟩ hL]
      exact ⟨rfl, rfl⟩
  · push_neg at hL
    cases ok1 with
    | true =>
      have h1 : SetExcludeFromCapture true true true s =
          ⟨s.exStyle, WDA_EXCLUDEFROMCAPTURE, s.originalExStyle⟩ := by
        unfold SetExcludeFromCapture
        simp [hL, h0]
      rw [h1, setExclude_false_ok_nosave
        ⟨s.exStyle, WDA_EXCLUDEFROMCAPTURE, s.originalExStyle⟩ h0]
      exact ⟨rfl, h0⟩
    | false =>
      have h1 : SetExcludeFromCapture true true false s = s := by
        unfold SetExcludeFromCapture
        simp [hL, h0]
      rw [h1, setExclude_false_ok_nosave s h0]
      exact ⟨rfl, h0⟩

/-- Concrete instance of C3 starting from a layered window with no saved
style. -/
theorem c3_exclude_roundtrip_witness :
    (SetExcludeFromCapture false true true
      (SetExcludeFromCapture true true true
        ⟨0x80000, 0, 0⟩)).exStyle = (0x80000 : Nat) ∧
    (SetExcludeFromCapture false true true
      (SetExcludeFromCapture true true true
        ⟨0x80000, 0, 0⟩)).originalExStyle = 0 :=
  c3_exclude_roundtrip ⟨0x80000, 0, 0⟩ true rfl

/-- C4 counterexample: a reachable state (one Show in which the toolbar
creation fails and all four border creations succeed, tolerated per the
failure semantics) holds the four border handles but no toolbar handle, so
the held handles are neither all present nor all absent. -/
theorem c4_counterexample :
    Reachable (Show 1920 1080 false allCreateOk hiddenState) ∧
    ¬ (allPresent (Show 1920 1080 false allCreateOk hiddenState) ∨
       allAbsent (Show 1920 1080 false allCreateOk hiddenState)) := by
  constructor
  · exact Reachable.showStep 1920 1080 false allCreateOk hiddenState
      Reachable.init
  · intro h
    rcases h with h | h
    · exact absurd h.1 (by decide)
    · exact absurd h.2 (by decide)

/-- C4 amended: in every state reachable by Show and Hide in which every
individual window creation succeeds, the held handles are all
simultaneously present (one toolbar handle and four border handles) or all
simultaneously absent. -/
theorem c4_amended (s : OverlayState) (h : ReachableOk s) :
    allPresent s ∨ allAbsent s := by
  induction h with
  | init => exact Or.inr ⟨rfl, rfl⟩
  | showStep screenW screenH t _ ih =>
    refine Or.inl ⟨Show_allOk_toolbar screenW screenH t, ?_⟩
    refine Show_allOk_borders_length screenW screenH true t ?_
    rcases ih with ⟨_, hb⟩ | ⟨_, hb⟩
    · exact Or.inr hb
    · exact Or.inl hb
  | hideStep t _ _ => exact Or.inr ⟨rfl, rfl⟩

/-- Concrete instance of the amended C4 at the state reached by one fully
successful Show. -/
theorem c4_amended_witness :
    allPresent (Show 800 600 true allCreateOk hiddenState) ∨
    allAbsent (Show 800 600 true allCreateOk hiddenState) :=
  c4_amended (Show 800 600 true allCreateOk hiddenState)
    (ReachableOk.showStep 800 600 hiddenState ReachableOk.init)

/-- C5: for every overlay state, every screen geometry and every outcome
of the individual window creations (held fixed across the immediate pair
of calls), calling Show and then immediately calling Show again leaves the
held window set unchanged by the second call; the Linux conjunct states
the same for the GTK implementation, where creation cannot fail. -/
theorem c5_show_idempotent (s : OverlayState) (screenW screenH : Int)
    (tOk : Bool) (bOk : Nat → Bool) (ls : GtkOverlayState) :
    Show screenW screenH tOk bOk (Show screenW screenH tOk bOk s) =
      Show screenW screenH tOk bOk s ∧
    gtk_show_overlay (gtk_show_overlay ls) = gtk_show_overlay ls := by
  constructor
  · ext1
    · rw [Show_toolbar_or, Show_toolbar_or]
      simp [Bool.or_assoc]
    · rw [Show_borders_eq, Show_borders_eq]
      by_cases hb : s.borders = []
      · simp only [hb, if_true, if_pos]
        split <;> rfl
      · simp [hb]
  · rw [gtk_show_overlay_full, gtk_show_overlay_full]

/-- C6: for a primary screen of width W and height H and the fixed corner
size 60, Show creates the four corner border windows at exactly (0,0),
(W-60,0), (0,H-60) and (W-60,H-60), each sized 60 by 60; the Linux
positions array for a monitor at origin (0,0) lists the same four
points. -/
theorem c6_corner_geometry (screenW screenH : Int) :
    (Show screenW screenH true allCreateOk hiddenState).borders =
      [⟨0, 0, 0, cornerSize, cornerSize⟩,
       ⟨1, screenW - cornerSize, 0, cornerSize, cornerSize⟩,
       ⟨2, 0, screenH - cornerSize, cornerSize, cornerSize⟩,
       ⟨3, screenW - cornerSize, screenH - cornerSize, cornerSize,
        cornerSize⟩] ∧
    gtkBorderPositions 0 0 screenW screenH =
      [(0, 0), (screenW - cornerSize, 0), (0, screenH - cornerSize),
       (screenW - cornerSize, screenH - cornerSize)] := by
  constructor
  · rfl
  · simp [gtkBorderPositions]

/-- C7: activating the stop control first performs Hide (the resulting
state holds no windows, and the destroy events precede everything else in
the trace) and then emits exactly one onStopSharingRequested notification
carrying no payload, on both platforms. -/
theorem c7_stop_control (s : OverlayState) (ls : GtkOverlayState) :
    (OnStopButton s).1 = Hide s ∧
    (OnStopButton s).2 =
      HideEvents s ++
        [OverlayEvent.notifyHost "onStopSharingRequested" none] ∧
    ((OnStopButton s).2.filter isNotifyEvent) =
      [OverlayEvent.notifyHost "onStopSharingRequested" none] ∧
    (on_stop_button_clicked ls).1 = destroy_overlay_windows ls ∧
    ((on_stop_button_clicked ls).2.filter isNotifyEvent) =
      [OverlayEvent.notifyHost "onStopSharingRequested" none] := by
  refine ⟨rfl, rfl, ?_, rfl, ?_⟩
  · unfold OnStopButton
    rw [List.filter_append, filter_notify_HideEvents]
    rfl
  · unfold on_stop_button_clicked
    rw [List.filter_append, filter_notify_gtkHideEvents]
    rfl

/-- C9: Show followed by Hide leaves the held window set empty; Show and
Hide never touch the graphics resources, and controller teardown releases
each allocated resource exactly once, whether or not the overlay was ever
shown. -/
theorem c9_show_hide_resources (screenW screenH : Int) (tOk : Bool)
    (bOk : Nat → Bool) (o : Overlay) (r : Resources) :
    (overlayHide (overlayShow screenW screenH tOk bOk o)).st = hiddenState ∧
    (overlayShow screenW screenH tOk bOk o).res = o.res ∧
    (overlayHide o).res = o.res ∧
    (overlayDestructor o).1 = hiddenState ∧
    (overlayDestructor o).2 = destructorReleases o.res ∧
    ((destructorReleases r).count GdiResource.toolbarBrush =
      if r.toolbarBrush then 1 else 0) ∧
    ((destructorReleases r).count GdiResource.greenBrush =
      if r.greenBrush then 1 else 0) ∧
    ((destructorReleases r).count GdiResource.labelFont =
      if r.labelFont then 1 else 0) ∧
    ((destructorReleases r).count GdiResource.buttonFont =
      if r.buttonFont then 1 else 0) := by
  obtain ⟨ra, rb, rc, rd⟩ := r
  refine ⟨rfl, rfl, rfl, rfl, rfl, ?_, ?_, ?_, ?_⟩ <;>
    cases ra <;> cases rb <;> cases rc <;> cases rd <;> rfl

/-- C10: Hide on a never-shown controller performs no destructive
operation and leaves the held window set empty; on any (in particular
partially created) state it destroys exactly the handles actually held.
The Linux conjuncts state the same for destroy_overlay_windows. -/
theorem c10_hide_never_shown (s : OverlayState) (ls : GtkOverlayState) :
    HideEvents hiddenState = [] ∧
    Hide hiddenState = hiddenState ∧
    Hide s = hiddenState ∧
    (HideEvents s).length =
      (if s.toolbar then 1 else 0) + s.borders.length ∧
    gtkHideEvents gtkHiddenState = [] ∧
    destroy_overlay_windows ls = gtkHiddenState := by
  refine ⟨rfl, rfl, rfl, ?_, rfl, rfl⟩
  unfold HideEvents
  rw [List.length_append, List.length_map]
  congr 1
  split <;> rfl

/-- C8 counterexample: the call setExcludeFromCapture with an exclude
field holding a string produces none of success, error or not-implemented
on Windows: std::get throws before any result is sent, so the dispatcher
does not produce exactly one of the three outcomes. -/
theorem c8_counterexample :
    (HandleMethodCall ⟨none⟩ none "setExcludeFromCapture"
      (some (.mapV [("exclude", .stringV "yes")]))).outcome = .thrown ∧
    (HandleMethodCall ⟨none⟩ none "setExcludeFromCapture"
      (some (.mapV [("exclude",
        .stringV "yes")]))).outcome.isSuccessOutcome = false ∧
    (HandleMethodCall ⟨none⟩ none "setExcludeFromCapture"
      (some (.mapV [("exclude",
        .stringV "yes")]))).outcome.isErrorOutcome = false ∧
    (HandleMethodCall ⟨none⟩ none "setExcludeFromCapture"
      (some (.mapV [("exclude",
        .stringV "yes")]))).outcome.isNotImplementedOutcome = false :=
  ⟨rfl, rfl, rfl, rfl⟩

/-- C8 amended: the Windows dispatcher produces exactly one of success,
error or not-implemented for every call except setExcludeFromCapture with
a present but non-boolean exclude field, where the variant access throws;
every unrecognized method name yields not-implemented and never an error.
The Linux dispatcher produces one of the three outcomes for every call and
also maps every unrecognized name to not-implemented. -/
theorem c8_amended (env : PluginEnv) (saved : Option Nat) (method : String)
    (args : Option EncodableValue) :
    ((HandleMethodCall env saved method args).outcome.isSettled = false →
      method = "setExcludeFromCapture" ∧
        ∃ v : EncodableValue,
          excludeArg args = some v ∧ v.isBool = false) ∧
    (method ∉ knownMethods →
      (HandleMethodCall env saved method args).outcome =
        .notImplemented) ∧
    (method_call_cb method).1.isSettled = true ∧
    (method ∉ linuxKnownMethods →
      (method_call_cb method).1 = .notImplemented) := by
  by_cases h2 : method = "setExcludeFromCapture"
  · subst h2
    rcases hev : excludeArg args with _ | v
    · simp [HandleMethodCall, method_call_cb, hev, knownMethods,
        linuxKnownMethods, MethodOutcome.isSettled]
    · cases v <;>
        simp [HandleMethodCall, method_call_cb, hev, knownMethods,
          linuxKnownMethods, MethodOutcome.isSettled,
          EncodableValue.isBool]
  · by_cases h1 : method = "isSupported"
    · subst h1
      simp [HandleMethodCall, method_call_cb, knownMethods,
        linuxKnownMethods, MethodOutcome.isSettled]
    · by_cases h3 : method = "showOverlay"
      · subst h3
        simp [HandleMethodCall, method_call_cb, knownMethods,
          linuxKnownMethods, MethodOutcome.isSettled]
      · by_cases h4 : method = "hideOverlay"
        · subst h4
          simp [HandleMethodCall, method_call_cb, knownMethods,
            linuxKnownMethods, MethodOutcome.isSettled]
        · by_cases h5 : method = "minimizeWindow"
          · subst h5
            rcases hmw : env.mainWindow with _ | hw <;>
              simp [HandleMethodCall, method_call_cb, GetMainWindow, hmw,
                knownMethods, linuxKnownMethods, MethodOutcome.isSettled]
          · by_cases h6 : method = "restoreWindow"
            · subst h6
              rcases saved with _ | sh
              · rcases hmw : env.mainWindow with _ | hw <;>
                  simp [HandleMethodCall, method_call_cb, GetMainWindow,
                    hmw, knownMethods, linuxKnownMethods,
                    MethodOutcome.isSettled]
              · simp [HandleMethodCall, method_call_cb, GetMainWindow,
                  knownMethods, linuxKnownMethods, MethodOutcome.isSettled]
            · simp [HandleMethodCall, method_call_cb, h1, h2, h3, h4, h5,
                h6, knownMethods, linuxKnownMethods,
                MethodOutcome.isSettled]

/-- Concrete instance of the amended C8: an unrecognized method name
yields not-implemented on both platforms. -/
theorem c8_amended_witness :
    (HandleMethodCall ⟨none⟩ none "captureFrame" none).outcome =
      .notImplemented ∧
    (method_call_cb "captureFrame").1 = .notImplemented :=
  ⟨(c8_amended ⟨none⟩ none "captureFrame" none).2.1 (by decide),
   (c8_amended ⟨none⟩ none "captureFrame" none).2.2.2 (by decide)⟩

end RelayCore
